import Mathlib

/-!
Verification of the mattermost-slash-meme webhook server (src/main.rs).

Strings that the Rust code handles as raw bytes (the Authorization header
value, the credential, the configured tokens) are modelled as `List Nat`
(one entry per byte); strings handled as text (form fields, reply payload
fields) are modelled as `List Char`. Fallible Rust code returning
`Result<T, Error>` is modelled with `Except Error T`.
-/

namespace SlashMeme

/-- The bytes of the authorization scheme constant TOKEN_AUTHORIZATION_SCHEME,
that is of the five ASCII characters of the word Token. -/
def schemeBytes : List Nat := [84, 111, 107, 101, 110]

/-- Whether a byte is a UTF-8 continuation byte (0x80 to 0xBF). -/
def isCont (b : Nat) : Bool := decide (128 ≤ b) && decide (b < 192)

/-- Strict UTF-8 validity of a byte sequence, as checked by Rust's
String::from_utf8: ASCII passes, overlong encodings, surrogate code points
(lead 0xED with second byte at or above 0xA0) and code points above
0x10FFFF (lead above 0xF4) are rejected. -/
def utf8Valid : List Nat → Bool
  | [] => true
  | b :: rest =>
    if b < 128 then utf8Valid rest
    else if b < 194 then false
    else if b < 224 then
      match rest with
      | b1 :: rest2 => isCont b1 && utf8Valid rest2
      | [] => false
    else if b < 240 then
      match rest with
      | b1 :: b2 :: rest2 =>
        (if b = 224 then decide (160 ≤ b1) && decide (b1 < 192)
         else if b = 237 then decide (128 ≤ b1) && decide (b1 < 160)
         else isCont b1) && isCont b2 && utf8Valid rest2
      | _ => false
    else if b < 245 then
      match rest with
      | b1 :: b2 :: b3 :: rest2 =>
        (if b = 240 then decide (144 ≤ b1) && decide (b1 < 192)
         else if b = 244 then decide (128 ≤ b1) && decide (b1 < 144)
         else isCont b1) && isCont b2 && isCont b3 && utf8Valid rest2
      | _ => false
    else false

/-- The error enum of the program (src/main.rs lines 35 to 46). -/
inductive Error where
  | InvalidToken
  | InvalidAuthorizationHeader
  | InvalidAuthorizationHeaderValue
  | ImgFlip
deriving DecidableEq

/-- The two variants that arise from Authorization header handling: the
specification's taxonomy groups both under the single label MalformedHeader.
InvalidAuthorizationHeaderValue is produced by the structural check,
InvalidAuthorizationHeader by the From conversion of a FromUtf8Error. -/
def Error.isMalformedHeader : Error → Bool
  | .InvalidAuthorizationHeader => true
  | .InvalidAuthorizationHeaderValue => true
  | _ => false

/-- The structural test of token_authorization (src/main.rs lines 66 to 68):
the value starts with the scheme bytes, is strictly longer than the scheme
(whose length is 5) and the byte at index 5 is an ASCII space (32). -/
def headerCheck (h : List Nat) : Bool :=
  schemeBytes.isPrefixOf h && decide (5 < h.length) && (List.getD h 5 0 == 32)

/-- The header parser token_authorization (src/main.rs lines 62 to 79): on a
structurally valid value the bytes after the scheme and the space (index 6
onward) are decoded by String::from_utf8; a decode failure is converted to
InvalidAuthorizationHeader, a structural failure yields
InvalidAuthorizationHeaderValue. The credential is modelled by its bytes. -/
def token_authorization (h : List Nat) : Except Error (List Nat) :=
  if headerCheck h then
    if utf8Valid (h.drop 6) then Except.ok (h.drop 6)
    else Except.error Error.InvalidAuthorizationHeader
  else Except.error Error.InvalidAuthorizationHeaderValue

/-- The decoded slash command request (src/main.rs lines 9 to 22). The
response_url field is kept as text; its URL wellformedness is checked by the
excluded decoding layer. -/
structure Request where
  channel_id : List Char
  channel_name : List Char
  command : List Char
  response_url : List Char
  team_domain : List Char
  team_id : List Char
  text : List Char
  token : List Char
  trigger_id : List Char
  user_id : List Char
  user_name : List Char

/-- The token validation closure built in main (src/main.rs lines 315 to
319): some configured token equals the presented credential. -/
def token_validator (tokens : List (List Nat)) (c : List Nat) : Bool :=
  tokens.any (fun configured_token => configured_token == c)

/-- The authorization step of the webhook filter (src/main.rs lines 91 to
98): an accepted credential passes the decoded request on, a rejected one
yields InvalidToken and the request is dropped. -/
def webhook (tokens : List (List Nat)) (c : List Nat) (request : Request) :
    Except Error Request :=
  if token_validator tokens c then Except.ok request
  else Except.error Error.InvalidToken

/-- The outbound reply payload (src/main.rs lines 24 to 33): every field is
optional; URLs are kept as text. -/
structure Response where
  text : Option (List Char)
  response_type : Option (List Char)
  username : Option (List Char)
  channel_id : Option (List Char)
  icon_url : Option (List Char)
  goto_location : Option (List Char)
  skip_slack_parsing : Option Bool

/-- The fixed imgflip icon URL every constructed payload carries. -/
def iconUrl : List Char := "https://imgflip.com/imgflip_white_96.png".data

/-- The chat platform treats an absent response_type as the default,
ephemeral visibility, which is private to the invoking user; channel-wide
visibility requires the explicit value in_channel. -/
def privateVisibility (v : Option (List Char)) : Prop :=
  v = none ∨ v = some ("ephemeral".data)

/-- Removal of one trailing carriage return, applied by Rust's str::lines to
every line that was terminated by a line feed. -/
def stripCR (l : List Char) : List Char :=
  if l.getLast? = some ('\r') then l.dropLast else l

/-- Helper for rustLines: acc holds the current line reversed. A final
unterminated line is emitted as is; input ending in a line feed yields no
trailing empty line. -/
def linesAux : List Char → List Char → List (List Char)
  | acc, [] => if acc.isEmpty then [] else [acc.reverse]
  | acc, c :: rest =>
    if c = ('\n') then stripCR acc.reverse :: linesAux [] rest
    else linesAux (c :: acc) rest

/-- Rust's str::lines: split at line feeds, strip one carriage return before
each line feed, no trailing empty line for a terminated input. -/
def rustLines (s : List Char) : List (List Char) := linesAux [] s

/-- The usage text built by usage (src/main.rs line 110), with the slash
command name interpolated twice. -/
def usageText (slash_command : List Char) : List Char :=
  "Usage: `".data ++ slash_command ++ " <id>⇧⏎<text>⇧⏎…`\nExample:\n```".data
    ++ slash_command ++ " 181913649\nmaking memes yourself\nusing a bot to make memes```".data

/-- The usage reply builder (src/main.rs lines 108 to 123). -/
def usage (slash_command : List Char) : Response :=
  { text := some (usageText slash_command)
    response_type := none
    username := none
    channel_id := none
    icon_url := some iconUrl
    goto_location := none
    skip_slack_parsing := some true }

/-- The immediate acknowledgement payload (src/main.rs lines 147 to 155). -/
def ackResponse : Response :=
  { text := some ("working on it".data)
    response_type := none
    username := none
    channel_id := none
    icon_url := some iconUrl
    goto_location := none
    skip_slack_parsing := some true }

/-- The caption request handed to the async worker (src/main.rs lines 103 to
106): the template id and the ordered caption texts. -/
structure MemeRequest where
  meme : List Char
  boxes : List (List Char)
deriving DecidableEq

/-- What meme_reply does for one decoded request: either it returns the usage
payload and spawns nothing, or it returns the acknowledgement payload and
spawns one unit of async work carrying the caption request and callback URL. -/
inductive ReplyOutcome where
  | usageOnly (resp : Response)
  | ackAndSpawn (resp : Response) (work : MemeRequest) (response_url : List Char)

/-- The dispatcher meme_reply (src/main.rs lines 125 to 161): the first line
of the body text becomes the template id, the remaining lines the caption
boxes; with no first line or no boxes the usage payload is returned and no
work is spawned, otherwise the acknowledgement is returned and
reply_with_meme is spawned once. -/
def meme_reply (request : Request) : ReplyOutcome :=
  match rustLines request.text with
  | [] => ReplyOutcome.usageOnly (usage request.command)
  | meme :: boxes =>
    if boxes.isEmpty then ReplyOutcome.usageOnly (usage request.command)
    else ReplyOutcome.ackAndSpawn ackResponse { meme := meme, boxes := boxes }
      request.response_url

/-- The async work a ReplyOutcome schedules, if any. -/
def scheduledWork : ReplyOutcome → Option (MemeRequest × List Char)
  | ReplyOutcome.usageOnly _ => none
  | ReplyOutcome.ackAndSpawn _ work u => some (work, u)

/-- How many async units of work a ReplyOutcome spawns. -/
def spawnCount : ReplyOutcome → Nat
  | ReplyOutcome.usageOnly _ => 0
  | ReplyOutcome.ackAndSpawn _ _ _ => 1

/-- The successful result of the external captioning call: the image URL and
the page URL of the generated meme. -/
structure Meme where
  url : List Char
  page_url : List Char

/-- The error side of the imgflip call as matched by reply_with_meme
(src/main.rs lines 187 to 206): a structured ApiError with a message, a
transport failure, or any other library error (the wildcard arm). -/
inductive CaptionError where
  | apiError (message : List Char)
  | transportError
  | otherError

/-- The mapping from the captioning outcome to the final payload
(src/main.rs lines 177 to 207). -/
def buildPayload : Except CaptionError Meme → Response
  | Except.ok meme =>
    { text := some (" hej ".data ++ meme.url)
      response_type := some ("in_channel".data)
      username := none
      channel_id := none
      icon_url := some iconUrl
      goto_location := some meme.page_url
      skip_slack_parsing := some true }
  | Except.error (CaptionError.apiError message) =>
    { text := some ("Uhoh, something went wrong: ".data ++ message)
      response_type := none
      username := none
      channel_id := none
      icon_url := some iconUrl
      goto_location := none
      skip_slack_parsing := some true }
  | Except.error _ =>
    { text := some ("Uhoh, something went wrong".data)
      response_type := none
      username := none
      channel_id := none
      icon_url := some iconUrl
      goto_location := none
      skip_slack_parsing := some true }

/-- How the worker task ends. -/
inductive WorkerTermination where
  | completed
  | panicked
deriving DecidableEq

/-- One run of the async worker, after the HTTP response was already sent:
the payload it built, how many callback POST attempts it made, and how the
task ended. -/
structure WorkerRun where
  payload : Response
  postAttempts : Nat
  termination : WorkerTermination

/-- The async worker reply_with_meme (src/main.rs lines 163 to 217): the
outcome of the captioning call is mapped to a payload, exactly one POST to
the callback URL is attempted, and the Result of that send is unwrapped
(line 216), so a delivery failure panics the worker task; no retry and no
log of the failure happen. deliveryOk tells whether the POST succeeded. -/
def reply_with_meme (outcome : Except CaptionError Meme) (deliveryOk : Bool) :
    WorkerRun :=
  { payload := buildPayload outcome
    postAttempts := 1
    termination :=
      if deliveryOk then WorkerTermination.completed else WorkerTermination.panicked }

/-- A problem document as built by problem::pack (src/main.rs lines 258 to
278), restricted to the crate's own Error values, the inputs the program
feeds it through problem::build; the passthrough branch for an already
packed problem is the identity and not modelled. -/
structure Problem where
  status : Option Nat
  title : List Char
  detail : Option (List Char)

/-- The problem-detail media type constant PROBLEM_JSON_MEDIA_TYPE of the
http_api_problem crate. -/
def problemJsonMediaType : List Char := "application/problem+json".data

/-- problem::pack (src/main.rs lines 258 to 278) on the crate's Error enum:
only InvalidToken is matched and mapped to status 401; every other variant
falls through the wildcard arm to a 500 internal server error problem. -/
def pack : Error → Problem
  | Error.InvalidToken =>
    { status := some 401
      title := "Invalid token.".data
      detail := some ("The passed token was invalid.".data) }
  | _ =>
    { status := some 500
      title := "Internal Server Error".data
      detail := none }

/-- problem::unpack (src/main.rs lines 280 to 298): the HTTP reply carries
the problem's status (500 when unset) and the problem-detail media type as
its Content-Type. -/
def unpack (p : Problem) : Nat × List Char :=
  (p.status.getD 500, problemJsonMediaType)

/-- The success condition of header parsing as the specification states it:
the value starts with the scheme token, is strictly longer than the scheme
token, the byte immediately after the scheme token is a space, and the
remainder is valid UTF-8 text. -/
def headerSpecOk (h : List Nat) : Prop :=
  schemeBytes.isPrefixOf h = true ∧ 5 < h.length ∧ List.getD h 5 0 = 32
    ∧ utf8Valid (h.drop 6) = true

/-- One list occurs inside another. -/
def containsSub (needle hay : List Char) : Prop :=
  ∃ pre post, hay = pre ++ needle ++ post

/-- The four payload fields the program never varies: icon URL, the
suppression flag, username and channel id. -/
def fixedFields (r : Response) : Prop :=
  r.icon_url = some iconUrl ∧ r.skip_slack_parsing = some true
    ∧ r.username = none ∧ r.channel_id = none

/-- A request whose body text is the single line 181913649. -/
def sampleRequest1 : Request :=
  { channel_id := []
    channel_name := []
    command := "/meme".data
    response_url := "https://callback.invalid/hook".data
    team_domain := []
    team_id := []
    text := "181913649".data
    token := []
    trigger_id := []
    user_id := []
    user_name := [] }

/-- A request whose body text has a template line and two caption lines. -/
def sampleRequest2 : Request :=
  { channel_id := []
    channel_name := []
    command := "/meme".data
    response_url := "https://callback.invalid/hook".data
    team_domain := []
    team_id := []
    text := "181913649\ntop text\nbottom text".data
    token := []
    trigger_id := []
    user_id := []
    user_name := [] }

lemma headerCheck_eq_true_iff (h : List Nat) :
    headerCheck h = true ↔
      (schemeBytes.isPrefixOf h = true ∧ 5 < h.length ∧ List.getD h 5 0 = 32) := by
  simp [headerCheck, Bool.and_eq_true, and_assoc]

lemma token_validator_iff (tokens : List (List Nat)) (c : List Nat) :
    token_validator tokens c = true ↔ c ∈ tokens := by
  simp [token_validator, List.any_eq_true]

lemma webhook_spec (tokens : List (List Nat)) (c : List Nat) (r : Request) :
    (webhook tokens c r = Except.ok r ↔ c ∈ tokens)
    ∧ (c ∉ tokens → webhook tokens c r = Except.error Error.InvalidToken) := by
  have hv := token_validator_iff tokens c
  cases ht : token_validator tokens c with
  | true =>
    have hmem : c ∈ tokens := hv.mp ht
    have hres : webhook tokens c r = Except.ok r := by simp [webhook, ht]
    exact ⟨⟨fun _ => hmem, fun _ => hres⟩, fun hn => absurd hmem hn⟩
  | false =>
    have hres : webhook tokens c r = Except.error Error.InvalidToken := by
      simp [webhook, ht]
    have hmem : c ∉ tokens := by
      intro hm
      rw [hv.mpr hm] at ht
      exact Bool.noConfusion ht
    refine ⟨⟨fun hk => ?_, fun hm => absurd hm hmem⟩, fun _ => hres⟩
    rw [hres] at hk
    exact Except.noConfusion hk

lemma containsSub_usageText (cmd : List Char) : containsSub cmd (usageText cmd) := by
  refine ⟨"Usage: `".data,
    " <id>⇧⏎<text>⇧⏎…`\nExample:\n```".data ++ cmd
      ++ " 181913649\nmaking memes yourself\nusing a bot to make memes```".data, ?_⟩
  simp [usageText, List.append_assoc]

/-- C1: for every Authorization header value, parsing succeeds and returns
exactly the bytes after the Token-plus-space prefix iff the value starts with
the scheme token, is strictly longer, the byte after the scheme is a space
and the remainder is valid UTF-8; in every other case it fails with one of
the two malformed-header errors. -/
theorem C1_header_parsing (h : List Nat) :
    (token_authorization h = Except.ok (h.drop 6) ↔ headerSpecOk h)
    ∧ (∀ c, token_authorization h = Except.ok c → c = h.drop 6)
    ∧ (¬ headerSpecOk h →
        ∃ e, token_authorization h = Except.error e ∧ e.isMalformedHeader = true) := by
  have hiff := headerCheck_eq_true_iff h
  cases hc : headerCheck h with
  | false =>
    have hres : token_authorization h = Except.error Error.InvalidAuthorizationHeaderValue := by
      simp [token_authorization, hc]
    have hnot : ¬ headerSpecOk h := by
      intro hs
      have hk : headerCheck h = true := hiff.mpr ⟨hs.1, hs.2.1, hs.2.2.1⟩
      rw [hc] at hk
      exact Bool.noConfusion hk
    refine ⟨⟨fun hk => ?_, fun hs => absurd hs hnot⟩, fun c hk => ?_,
      fun _ => ⟨Error.InvalidAuthorizationHeaderValue, hres, rfl⟩⟩
    · rw [hres] at hk
      exact Except.noConfusion hk
    · rw [hres] at hk
      exact Except.noConfusion hk
  | true =>
    cases hu : utf8Valid (h.drop 6) with
    | false =>
      have hres : token_authorization h = Except.error Error.InvalidAuthorizationHeader := by
        simp [token_authorization, hc, hu]
      have hnot : ¬ headerSpecOk h := by
        intro hs
        rw [hs.2.2.2] at hu
        exact Bool.noConfusion hu
      refine ⟨⟨fun hk => ?_, fun hs => absurd hs hnot⟩, fun c hk => ?_,
        fun _ => ⟨Error.InvalidAuthorizationHeader, hres, rfl⟩⟩
      · rw [hres] at hk
        exact Except.noConfusion hk
      · rw [hres] at hk
        exact Except.noConfusion hk
    | true =>
      have hres : token_authorization h = Except.ok (h.drop 6) := by
        simp [token_authorization, hc, hu]
      have hspec : headerSpecOk h := by
        obtain ⟨h1, h2, h3⟩ := hiff.mp hc
        exact ⟨h1, h2, h3, hu⟩
      refine ⟨⟨fun _ => hspec, fun _ => hres⟩, fun c hk => ?_, fun hns => absurd hspec hns⟩
      rw [hres] at hk
      exact (Except.ok.inj hk).symm

/-- C2: authorization succeeds iff the credential is byte-for-byte equal to
some configured token; otherwise the request is rejected with the invalid
token error and no decoded request is passed on. -/
theorem C2_token_authorizer (tokens : List (List Nat)) (c : List Nat) (r : Request) :
    (webhook tokens c r = Except.ok r ↔ c ∈ tokens)
    ∧ (c ∉ tokens → webhook tokens c r = Except.error Error.InvalidToken) :=
  webhook_spec tokens c r

/-- C3 counterexample: a malformed Authorization header error is packed with
HTTP status 500, not the 400 the claim states. -/
theorem C3_status_counterexample :
    (unpack (pack Error.InvalidAuthorizationHeaderValue)).1 = 500
    ∧ (unpack (pack Error.InvalidAuthorizationHeaderValue)).1 ≠ 400 :=
  ⟨rfl, by decide⟩

/-- C3 amended: the problem packer maps an invalid token to 401 and every
other error variant, the malformed header errors included, to 500; the reply
always carries the problem-detail media type as its Content-Type. -/
theorem C3_status_mapping (e : Error) :
    (unpack (pack e)).1 = (if e = Error.InvalidToken then 401 else 500)
    ∧ (unpack (pack e)).2 = problemJsonMediaType := by
  cases e <;> simp [pack, unpack]

/-- C4: a body with zero lines or one line yields the usage payload, with the
command name interpolated into the example, the ephemeral default visibility
and the suppression flag set, and no async work is spawned. -/
theorem C4_usage_reply (request : Request)
    (h : (rustLines request.text).length ≤ 1) :
    meme_reply request = ReplyOutcome.usageOnly (usage request.command)
    ∧ spawnCount (meme_reply request) = 0
    ∧ scheduledWork (meme_reply request) = none
    ∧ (usage request.command).text = some (usageText request.command)
    ∧ containsSub request.command (usageText request.command)
    ∧ privateVisibility (usage request.command).response_type
    ∧ (usage request.command).skip_slack_parsing = some true := by
  have hres : meme_reply request = ReplyOutcome.usageOnly (usage request.command) := by
    cases hl : rustLines request.text with
    | nil => simp [meme_reply, hl]
    | cons a t =>
      cases t with
      | nil => simp [meme_reply, hl]
      | cons b t2 =>
        rw [hl] at h
        simp at h
  refine ⟨hres, ?_, ?_, rfl, containsSub_usageText _, Or.inl rfl, rfl⟩
  · rw [hres]
    rfl
  · rw [hres]
    rfl

/-- C4 witness: the single-line body 181913649 yields the usage payload. -/
theorem C4_usage_reply_witness :
    meme_reply sampleRequest1 = ReplyOutcome.usageOnly (usage sampleRequest1.command) :=
  (C4_usage_reply sampleRequest1 (by decide)).1

/-- C5: a body with at least two lines makes line 1 the template id and the
remaining lines the caption texts in order, returns the acknowledgement
payload with text working on it and the ephemeral default visibility, and
spawns the async work exactly once. -/
theorem C5_caption_dispatch (request : Request)
    (h : 2 ≤ (rustLines request.text).length) :
    meme_reply request = ReplyOutcome.ackAndSpawn ackResponse
      { meme := (rustLines request.text).headD []
        boxes := (rustLines request.text).tail } request.response_url
    ∧ ackResponse.text = some ("working on it".data)
    ∧ privateVisibility ackResponse.response_type
    ∧ spawnCount (meme_reply request) = 1
    ∧ scheduledWork (meme_reply request) = some
        ({ meme := (rustLines request.text).headD []
           boxes := (rustLines request.text).tail }, request.response_url) := by
  cases hl : rustLines request.text with
  | nil =>
    rw [hl] at h
    exact absurd h (by simp)
  | cons a t =>
    cases t with
    | nil =>
      rw [hl] at h
      exact absurd h (by simp)
    | cons b t2 =>
      have hres : meme_reply request = ReplyOutcome.ackAndSpawn ackResponse
          { meme := a, boxes := b :: t2 } request.response_url := by
        simp [meme_reply, hl]
      refine ⟨hres, rfl, Or.inl rfl, ?_, ?_⟩
      · rw [hres]
        rfl
      · rw [hres]
        rfl

/-- C5 witness: the three-line body with template 181913649 and two captions
spawns the async work once. -/
theorem C5_caption_dispatch_witness :
    spawnCount (meme_reply sampleRequest2) = 1 :=
  (C5_caption_dispatch sampleRequest2 (by decide)).2.2.2.1

/-- C6 counterexample: when the callback POST fails the worker task panics,
because the send result is unwrapped; the claim that the worker does not
panic is false. -/
theorem C6_delivery_failure_counterexample :
    (reply_with_meme (Except.error CaptionError.transportError) false).termination
      = WorkerTermination.panicked
    ∧ WorkerTermination.panicked ≠ WorkerTermination.completed :=
  ⟨rfl, by decide⟩

/-- C6 amended: a delivery failure is terminal for the unit of work, with
exactly one POST attempt and no retry and nothing returned to the original
caller, but the worker ends by panicking on the unwrapped send result rather
than logging; a successful delivery completes the task. -/
theorem C6_delivery_failure (outcome : Except CaptionError Meme) (deliveryOk : Bool) :
    (reply_with_meme outcome deliveryOk).postAttempts = 1
    ∧ (deliveryOk = false →
        (reply_with_meme outcome deliveryOk).termination = WorkerTermination.panicked)
    ∧ (deliveryOk = true →
        (reply_with_meme outcome deliveryOk).termination = WorkerTermination.completed) := by
  cases deliveryOk with
  | false => exact ⟨rfl, fun _ => rfl, fun hk => Bool.noConfusion hk⟩
  | true => exact ⟨rfl, fun hk => Bool.noConfusion hk, fun _ => rfl⟩

/-- C7: a structured API error with message m yields the text Uhoh, something
went wrong: followed by m verbatim, with the ephemeral default visibility and
no goto URL; a transport error or any other failure yields the generic text
with the same visibility and no goto URL. -/
theorem C7_error_payloads (message : List Char) :
    (buildPayload (Except.error (CaptionError.apiError message))).text
      = some ("Uhoh, something went wrong: ".data ++ message)
    ∧ privateVisibility (buildPayload (Except.error (CaptionError.apiError message))).response_type
    ∧ (buildPayload (Except.error (CaptionError.apiError message))).goto_location = none
    ∧ (buildPayload (Except.error CaptionError.transportError)).text
      = some ("Uhoh, something went wrong".data)
    ∧ privateVisibility (buildPayload (Except.error CaptionError.transportError)).response_type
    ∧ (buildPayload (Except.error CaptionError.transportError)).goto_location = none
    ∧ (buildPayload (Except.error CaptionError.otherError)).text
      = some ("Uhoh, something went wrong".data)
    ∧ privateVisibility (buildPayload (Except.error CaptionError.otherError)).response_type
    ∧ (buildPayload (Except.error CaptionError.otherError)).goto_location = none :=
  ⟨rfl, Or.inl rfl, rfl, rfl, Or.inl rfl, rfl, rfl, Or.inl rfl, rfl⟩

/-- C8: a successful captioning outcome yields a payload whose text
references the artifact URL, whose visibility is channel-wide and whose goto
URL is the page URL. -/
theorem C8_success_payload (u p : List Char) :
    (buildPayload (Except.ok { url := u, page_url := p })).text
      = some (" hej ".data ++ u)
    ∧ containsSub u (" hej ".data ++ u)
    ∧ (buildPayload (Except.ok { url := u, page_url := p })).response_type
      = some ("in_channel".data)
    ∧ (buildPayload (Except.ok { url := u, page_url := p })).goto_location = some p :=
  ⟨rfl, ⟨" hej ".data, [], by simp⟩, rfl, rfl⟩

/-- C9: the header value consisting of exactly the scheme token and one
space parses to the empty credential, and authorization of such a request
succeeds iff the empty byte string is among the configured tokens. -/
theorem C9_empty_credential (tokens : List (List Nat)) (r : Request) :
    token_authorization [84, 111, 107, 101, 110, 32] = Except.ok []
    ∧ (webhook tokens [] r = Except.ok r ↔ [] ∈ tokens)
    ∧ ([] ∉ tokens → webhook tokens [] r = Except.error Error.InvalidToken) :=
  ⟨rfl, (webhook_spec tokens [] r).1, (webhook_spec tokens [] r).2⟩

/-- C10: every payload the program constructs carries the fixed imgflip icon
URL and the suppression flag set to true, and leaves username and channel id
unset. -/
theorem C10_payload_invariants (cmd : List Char) (outcome : Except CaptionError Meme) :
    fixedFields (usage cmd) ∧ fixedFields ackResponse
    ∧ fixedFields (buildPayload outcome) := by
  refine ⟨⟨rfl, rfl, rfl, rfl⟩, ⟨rfl, rfl, rfl, rfl⟩, ?_⟩
  match outcome with
  | Except.ok m => exact ⟨rfl, rfl, rfl, rfl⟩
  | Except.error (CaptionError.apiError m) => exact ⟨rfl, rfl, rfl, rfl⟩
  | Except.error CaptionError.transportError => exact ⟨rfl, rfl, rfl, rfl⟩
  | Except.error CaptionError.otherError => exact ⟨rfl, rfl, rfl, rfl⟩

end SlashMeme
